import Mathlib

/-!
Verification of the Safety-Route-Navigator risk engine.

This development shallowly embeds the two source files of the repository:

* `generate_crime_data.py` — the incident lifecycle simulation: per-incident
  dynamic risk recomputation (`update_dynamic_scores`), the hotspot-density and
  safety-influence spatial calculators, time-of-day weighting
  (`get_time_weight`), pruning inside `run_simulation`, and near-repeat
  incident injection (`generate_new_incident`).
* `app.py` — the scoring side: route safety scoring (`calculate_safety`),
  route classification (`classify_route_safety`), the radar point scan
  (`get_radar_scan`) and the safe-haven locator (`find_nearest_safe_havens`).

Python floats are modelled as exact numbers: stored record fields
(coordinates, timestamps, severities, decay rates) are rationals or integers,
while transcendental intermediate values (the haversine distance and the
exponential recency factor) live in `ℝ`.  Python's `round(x, n)` (banker's
rounding, round-half-to-even) is modelled exactly by `pyRound` below.
Timestamps are rational "seconds since epoch"; `datetime.hour` becomes
`hour_of`.
-/

namespace SafeRoute

/-- Python `round` to an integer: round half to even, as `round` does on
exactly representable values.  Defined generically so it can be used both on
`ℚ` (stored coordinates) and on `ℝ` (computed scores and distances). -/
def pyRound {α : Type} [LinearOrderedField α] [FloorRing α] (x : α) : ℤ :=
  if Int.fract x < 1/2 then ⌊x⌋
  else if 1/2 < Int.fract x then ⌊x⌋ + 1
  else if 2 ∣ ⌊x⌋ then ⌊x⌋ else ⌊x⌋ + 1

/-- Python `round(x, d)` for `d` decimal digits: scale, round half to even,
unscale.  The result is always rational. -/
def pyRoundTo {α : Type} [LinearOrderedField α] [FloorRing α] (d : ℕ) (x : α) : ℚ :=
  (pyRound (x * 10 ^ d) : ℚ) / 10 ^ d

theorem pyRound_eq_of_lt_half {α : Type} [LinearOrderedField α] [FloorRing α]
    {x : α} (n : ℤ) (h1 : (n : α) ≤ x) (h2 : x < n + 1/2) : pyRound x = n := by
  have hfl : ⌊x⌋ = n := by
    rw [Int.floor_eq_iff]
    exact ⟨h1, by linarith⟩
  have hfr : Int.fract x < 1/2 := by
    rw [Int.fract, hfl]; linarith
  unfold pyRound
  rw [if_pos hfr, hfl]

theorem pyRound_eq_add_one_of_half_lt {α : Type} [LinearOrderedField α] [FloorRing α]
    {x : α} (n : ℤ) (h1 : (n : α) + 1/2 < x) (h2 : x < n + 1) : pyRound x = n + 1 := by
  have hfl : ⌊x⌋ = n := by
    rw [Int.floor_eq_iff]
    constructor
    · linarith
    · linarith
  have hfr : 1/2 < Int.fract x := by
    rw [Int.fract, hfl]; linarith
  have hfr' : ¬ Int.fract x < 1/2 := by linarith
  unfold pyRound
  rw [if_neg hfr', if_pos hfr, hfl]

theorem pyRound_intCast {α : Type} [LinearOrderedField α] [FloorRing α]
    (n : ℤ) : pyRound (n : α) = n := by
  apply pyRound_eq_of_lt_half
  · exact le_refl _
  · linarith [show (0:α) < 1/2 by norm_num]

/-- Half-even rounding moves a value by at most `1/2`. -/
theorem abs_pyRound_sub_le {α : Type} [LinearOrderedField α] [FloorRing α]
    (x : α) : |(pyRound x : α) - x| ≤ 1/2 := by
  have hfl := Int.floor_le x
  have hfl' := Int.lt_floor_add_one x
  have hfr : Int.fract x = x - ⌊x⌋ := rfl
  unfold pyRound
  split_ifs with h1 h2 h3
  · rw [abs_le]; constructor <;> [linarith [hfr ▸ Int.fract_nonneg x]; linarith [hfr ▸ h1]]
  · push_cast
    rw [abs_le]; constructor <;> [nlinarith [hfr ▸ h2]; nlinarith [hfr ▸ Int.fract_lt_one x]]
  · have he : Int.fract x = 1/2 := by linarith
    rw [abs_le]; constructor <;> [linarith [hfr ▸ he]; linarith [hfr ▸ he]]
  · have he : Int.fract x = 1/2 := by linarith
    push_cast
    rw [abs_le]; constructor <;> [linarith [hfr ▸ he]; linarith [hfr ▸ he]]

/-- Rounding never crosses an integer bound from below. -/
theorem pyRound_le_of_le {α : Type} [LinearOrderedField α] [FloorRing α]
    {x : α} {n : ℤ} (h : x ≤ n) : pyRound x ≤ n := by
  have hfl : ⌊x⌋ ≤ n := (Int.floor_mono h).trans_eq (Int.floor_intCast n)
  have hfr : Int.fract x = x - ⌊x⌋ := rfl
  unfold pyRound
  split_ifs with h1 h2 h3
  · exact hfl
  · by_contra hc
    push_neg at hc
    have hxn : n ≤ ⌊x⌋ := by omega
    have : (n : α) + 1/2 < x := by
      have := hfr ▸ h2
      have hcast : (n : α) ≤ (⌊x⌋ : α) := by exact_mod_cast hxn
      linarith
    linarith
  · exact hfl
  · by_contra hc
    push_neg at hc
    have hxn : n ≤ ⌊x⌋ := by omega
    have he : Int.fract x = 1/2 := by linarith
    have : (n : α) + 1/2 ≤ x := by
      have := hfr ▸ he
      have hcast : (n : α) ≤ (⌊x⌋ : α) := by exact_mod_cast hxn
      linarith
    linarith

theorem pyRoundTo_le_of_le {α : Type} [LinearOrderedField α] [FloorRing α]
    {d : ℕ} {x : α} {n : ℤ} (h : x ≤ n) : pyRoundTo d x ≤ n := by
  unfold pyRoundTo
  rw [div_le_iff₀ (by positivity)]
  have hb : pyRound (x * 10 ^ d) ≤ n * 10 ^ d :=
    pyRound_le_of_le (by push_cast; nlinarith [pow_pos (show (0:α) < 10 by norm_num) d])
  exact_mod_cast hb

theorem pyRoundTo_eq_self {d : ℕ} {x : ℚ} (m : ℤ) (hm : x * 10 ^ d = m) :
    pyRoundTo d x = x := by
  unfold pyRoundTo
  rw [hm, pyRound_intCast, ← hm]
  field_simp

/-- Rounding to `d` decimals moves a value by at most `1/(2 · 10^d)`. -/
theorem abs_pyRoundTo_sub_le (d : ℕ) (x : ℚ) :
    |(pyRoundTo d x : ℚ) - x| ≤ 1 / (2 * 10 ^ d) := by
  have hb := abs_pyRound_sub_le (x * 10 ^ d)
  unfold pyRoundTo
  have hpow : (0:ℚ) < 10 ^ d := by positivity
  rw [show (pyRound (x * 10 ^ d) : ℚ) / 10 ^ d - x
        = ((pyRound (x * 10 ^ d) : ℚ) - x * 10 ^ d) / 10 ^ d by field_simp; ring,
      abs_div, abs_of_pos hpow, div_le_iff₀ hpow]
  have he : (1:ℚ) / (2 * 10 ^ d) * 10 ^ d = 1/2 := by field_simp; ring
  rw [he]
  exact hb

/-! ## Great-circle distance

Both source files define the same haversine formula (as `calculate_distance`
in `generate_crime_data.py` and `haversine` in `app.py`): mean Earth radius
6371 km, `a = sin²(Δlat/2) + cos lat₁ · cos lat₂ · sin²(Δlon/2)`,
`d = R · 2 · atan2(√a, √(1−a))`. -/

/-- Python `math.radians`. -/
noncomputable def radians (x : ℝ) : ℝ := x * Real.pi / 180

/-- Python `math.atan2` (full quadrant-aware arctangent). -/
noncomputable def atan2 (y x : ℝ) : ℝ :=
  if 0 < x then Real.arctan (y / x)
  else if x < 0 ∧ 0 ≤ y then Real.arctan (y / x) + Real.pi
  else if x < 0 ∧ y < 0 then Real.arctan (y / x) - Real.pi
  else if x = 0 ∧ 0 < y then Real.pi / 2
  else if x = 0 ∧ y < 0 then -(Real.pi / 2)
  else 0

/-- Haversine distance in km between two latitude/longitude pairs (degrees). -/
noncomputable def haversine (lat1 lon1 lat2 lon2 : ℝ) : ℝ :=
  let dlat := radians (lat2 - lat1)
  let dlon := radians (lon2 - lon1)
  let a := Real.sin (dlat / 2) ^ 2 +
    Real.cos (radians lat1) * Real.cos (radians lat2) * Real.sin (dlon / 2) ^ 2
  6371 * (2 * atan2 (Real.sqrt a) (Real.sqrt (1 - a)))

theorem radians_zero : radians 0 = 0 := by simp [radians]

theorem haversine_self (a b : ℝ) : haversine a b a b = 0 := by
  unfold haversine
  have hz : a - a = 0 := sub_self a
  have hz' : b - b = 0 := sub_self b
  rw [hz, hz', radians_zero]
  norm_num [atan2]

/-! ## `generate_crime_data.py`: data model

`CRIME_TYPES` fixes, per category, the base severity and the decay rate.
An `Incident` mirrors the dict built by `load_base_data` /
`generate_new_incident`: coordinates, timestamps and stored scores are exact
rationals, except `safety_influence` which is a computed real. -/

inductive Category : Type where
  | Assault | Robbery | Harassment | PoorLighting | IsolatedArea
  | DrugActivity | PoliceStation | CCTVZone
deriving DecidableEq, Repr

open Category in
/-- `CRIME_TYPES[...]['base_severity']`. -/
def base_severity_of : Category → ℤ
  | Assault => 8 | Robbery => 7 | Harassment => 6
  | PoorLighting => 4 | IsolatedArea => 5 | DrugActivity => 7
  | PoliceStation => -10 | CCTVZone => -5

open Category in
/-- `CRIME_TYPES[...]['decay_rate']`. -/
def decay_rate_of : Category → ℚ
  | Assault => 0.1 | Robbery => 0.15 | Harassment => 0.2
  | PoorLighting => 0.05 | IsolatedArea => 0.05 | DrugActivity => 0.1
  | PoliceStation => 0 | CCTVZone => 0

/-- One record of the simulation's working set.  Field names follow the dict
keys of the source (`timestamp` is `occurred_at` in the spec's wording). -/
structure Incident : Type where
  id : ℕ
  type : Category
  latitude : ℚ
  longitude : ℚ
  base_severity : ℤ
  dynamic_risk_score : ℚ
  timestamp : ℚ
  last_updated : ℚ
  time_decay_factor : ℚ
  hotspot_density : ℚ
  safety_influence : ℝ
  description : String

/-- Hour of day of a timestamp given in seconds (`datetime.hour`). -/
def hour_of (t : ℚ) : ℤ := ⌊t / 3600⌋ % 24

/-- `get_time_weight`: Routine Activity Theory time-of-day multiplier.  The
source tests `20 <= hour or hour <= 4` first (returning 1.3 only for the four
night-sensitive categories), `elif 10 <= hour <= 18` for Harassment, else 1.0. -/
def get_time_weight (t : Category) (hour : ℤ) : ℚ :=
  if 20 ≤ hour ∨ hour ≤ 4 then
    if t = .Assault ∨ t = .Robbery ∨ t = .PoorLighting ∨ t = .IsolatedArea then 1.3
    else 1.0
  else if 10 ≤ hour ∧ hour ≤ 18 then
    if t = .Harassment then 1.1 else 1.0
  else 1.0

/-- The count inside `calculate_hotspot_density`: other danger incidents
within 0.5 km whose timestamp is within the last 24 hours.  The source reads
the wall clock (`datetime.now()`) for the 24-hour test; we pass the tick time
`now` explicitly. -/
noncomputable def close_incident_count (target : Incident) (all : List Incident) (now : ℚ) : ℕ :=
  (all.map fun inc =>
    if inc.id ≠ target.id ∧ 0 < inc.base_severity ∧
       haversine target.latitude target.longitude inc.latitude inc.longitude ≤ 0.5 ∧
       (now - inc.timestamp) / 3600 < 24
    then 1 else 0).sum

/-- `calculate_hotspot_density`: clustering multiplier, 1.0 for safety assets,
otherwise `min(1.0 + 0.15 · count, 2.0)`. -/
noncomputable def calculate_hotspot_density (target : Incident) (all : List Incident) (now : ℚ) : ℚ :=
  if target.base_severity < 0 then 1.0
  else min (1.0 + (close_incident_count target all now : ℚ) * 0.15) 2.0

/-- `calculate_safety_influence`: capable-guardian dampening, 0.0 for safety
assets, otherwise the sum over safety assets within 1 km of
`abs(base_severity) · (1 − dist/1.0)`. -/
noncomputable def calculate_safety_influence (target : Incident) (all : List Incident) : ℝ :=
  if target.base_severity < 0 then 0.0
  else
    (all.map fun inc =>
      if inc.base_severity < 0 ∧
         haversine target.latitude target.longitude inc.latitude inc.longitude ≤ 1.0
      then |(inc.base_severity : ℝ)| *
        (1.0 - haversine target.latitude target.longitude inc.latitude inc.longitude / 1.0)
      else 0).sum

/-- `hours_elapsed` inside `update_dynamic_scores`:
`(current_time - inc['timestamp']).total_seconds() / 3600`, with no flooring
at zero. -/
def hours_elapsed (inc : Incident) (now : ℚ) : ℚ := (now - inc.timestamp) / 3600

/-- The recency factor `exp(-decay_rate · hours_elapsed)`. -/
noncomputable def recency_factor (inc : Incident) (now : ℚ) : ℝ :=
  Real.exp (-(inc.time_decay_factor : ℝ) * (hours_elapsed inc now : ℝ))

/-- The per-incident body of `update_dynamic_scores`: safety assets get
`dynamic_risk_score := base_severity` and are otherwise untouched; danger
incidents get hotspot density, safety influence and the clamped, 2-decimal
rounded risk `round(max(0, min(10, base·time_weight·recency·hotspot − safety)), 2)`. -/
noncomputable def update_incident (all : List Incident) (now : ℚ) (inc : Incident) : Incident :=
  if inc.base_severity < 0 then
    { inc with dynamic_risk_score := (inc.base_severity : ℚ), last_updated := now }
  else
    let tw := get_time_weight inc.type (hour_of now)
    let hd := calculate_hotspot_density inc all now
    let si := calculate_safety_influence inc all
    let raw : ℝ := (inc.base_severity : ℝ) * (tw : ℝ) * recency_factor inc now * (hd : ℝ) - si
    { inc with
      hotspot_density := hd
      safety_influence := si
      dynamic_risk_score := pyRoundTo 2 (max 0.0 (min 10.0 raw))
      last_updated := now }

/-- `update_dynamic_scores`: recompute every incident against the current set.
The source mutates the list in place while iterating, but the fields the
spatial calculators read (`id`, `base_severity`, coordinates, `timestamp`) are
never written by the update, so the in-place pass equals a map over the
original list. -/
noncomputable def update_dynamic_scores (incidents : List Incident) (now : ℚ) : List Incident :=
  incidents.map (update_incident incidents now)

/-- The prune step of `run_simulation`: keep an incident when
`dynamic_risk_score >= 0.5 or base_severity < 0 or age < 3600 s`. -/
def prune_incidents (incidents : List Incident) (now : ℚ) : List Incident :=
  incidents.filter fun inc =>
    0.5 ≤ inc.dynamic_risk_score ∨ inc.base_severity < 0 ∨ now - inc.timestamp < 3600

/-- The record built by `load_base_data` for one CSV row (CSV parsing and the
randomized fallback timestamp are the caller's input here): initial
`dynamic_risk_score` is the severity, `hotspot_density` 1.0,
`safety_influence` 0.0. -/
def load_incident (idn : ℕ) (ct : Category) (lat lon : ℚ) (severity : ℤ)
    (ts now : ℚ) (desc : String) : Incident :=
  { id := idn, type := ct, latitude := lat, longitude := lon
    base_severity := severity, dynamic_risk_score := (severity : ℚ)
    timestamp := ts, last_updated := now
    time_decay_factor := decay_rate_of ct
    hotspot_density := 1.0, safety_influence := 0.0, description := desc }

/-- The near-repeat branch of `generate_new_incident`: the anchor's
coordinates plus offsets drawn from ±0.015°, rounded to 4 decimal places
(`round(new_lat, 4)`); category data comes from `CRIME_TYPES`, both stored
scores start at the base severity, `hotspot_density` 1.0,
`safety_influence` 0.0. -/
def generate_new_incident_near (ct : Category) (anchor : Incident)
    (lat_offset lon_offset : ℚ) (now : ℚ) (idn : ℕ) (desc : String) : Incident :=
  { id := idn, type := ct
    latitude := pyRoundTo 4 (anchor.latitude + lat_offset)
    longitude := pyRoundTo 4 (anchor.longitude + lon_offset)
    base_severity := base_severity_of ct
    dynamic_risk_score := (base_severity_of ct : ℚ)
    timestamp := now, last_updated := now
    time_decay_factor := decay_rate_of ct
    hotspot_density := 1.0, safety_influence := 0.0, description := desc }

/-! ## `app.py`: scoring model

`app.py` reads the crime table with the columns
`latitude, longitude, type, description, severity`; `type` is an arbitrary
string there.  Route geometries are lists of `(longitude, latitude)` pairs. -/

/-- One row of the crime dataframe as consumed by `app.py`. -/
structure Crime : Type where
  latitude : ℚ
  longitude : ℚ
  type : String
  description : String
  severity : ℤ
deriving DecidableEq, Repr

/-- A flagged pin appended by `calculate_safety`
(`{lat, lng, type, desc, severity}`). -/
structure Pin : Type where
  lat : ℚ
  lng : ℚ
  type : String
  desc : String
  severity : ℤ
deriving DecidableEq, Repr

def mkPin (c : Crime) : Pin :=
  { lat := c.latitude, lng := c.longitude, type := c.type
    desc := c.description, severity := c.severity }

/-- `range(0, len(geometry), 5)`: take every 5th vertex, starting at index 0. -/
def every_fifth {α : Type} : List α → List α
  | [] => []
  | x :: xs => x :: every_fifth (xs.drop 4)
termination_by l => l.length
decreasing_by simp [List.length_drop]; omega

/-- The proximity test of `calculate_safety`: a vertex `(lon, lat)` is near a
crime when `haversine(lat, lon, crime.lat, crime.lon) < 0.3`. -/
noncomputable def route_near (v : ℚ × ℚ) (c : Crime) : Prop :=
  haversine (v.2 : ℝ) (v.1 : ℝ) (c.latitude : ℝ) (c.longitude : ℝ) < 0.3

noncomputable instance (v : ℚ × ℚ) (c : Crime) : Decidable (route_near v c) :=
  inferInstanceAs (Decidable (haversine (v.2 : ℝ) (v.1 : ℝ) (c.latitude : ℝ) (c.longitude : ℝ) < 0.3))

/-- The per-crime increment of `total_risk`: a negative severity is added
unmodified, otherwise `severity * time_multiplier`. -/
def route_contrib (tm : ℚ) (c : Crime) : ℚ :=
  if c.severity < 0 then (c.severity : ℚ) else (c.severity : ℚ) * tm

/-- The `total_risk` accumulator of `calculate_safety`: for every sampled
vertex, for every crime within 0.3 km, add `route_contrib`. -/
noncomputable def route_total_risk (geometry : List (ℚ × ℚ)) (crimes : List Crime) (tm : ℚ) : ℚ :=
  ((every_fifth geometry).map fun v =>
    (crimes.map fun c => if route_near v c then route_contrib tm c else 0).sum).sum

/-- The `unsafe_pins` list of `calculate_safety` before deduplication, in loop
order. -/
noncomputable def route_pins (geometry : List (ℚ × ℚ)) (crimes : List Crime) : List Pin :=
  (every_fifth geometry).flatMap fun v =>
    crimes.filterMap fun c => if route_near v c then some (mkPin c) else none

/-- `calculate_safety`: safety score `round(max(0, min(100, 100 − 2·risk)), 2)`
and the deduplicated pin list.  The source deduplicates through a Python set
of item tuples, which keeps exactly one copy of each distinct pin in
unspecified order; `List.dedup` has the same membership and no duplicates. -/
noncomputable def calculate_safety (geometry : List (ℚ × ℚ)) (crimes : List Crime) (tm : ℚ) :
    ℚ × List Pin :=
  (pyRoundTo 2 (max 0 (min 100 (100 - route_total_risk geometry crimes tm * 2))),
   (route_pins geometry crimes).dedup)

/-- `classify_route_safety` (category, color, label); decorative emoji are
dropped from the labels. -/
def classify_route_safety (score : ℚ) : String × String × String :=
  if 70 ≤ score then ("safe", "#10B981", "Safest Route")
  else if 40 ≤ score then ("moderate", "#F59E0B", "Moderate Route")
  else ("risk", "#EF4444", "Risky Route")

/-- A `nearby_crimes` entry of `/get_radar_scan`: the recorded distance is
`round(distance · 1000, 0)` meters. -/
structure RadarPin : Type where
  lat : ℚ
  lng : ℚ
  type : String
  distance : ℤ
  severity : ℤ
deriving DecidableEq, Repr

/-- A `safe_havens` entry of `find_nearest_safe_havens`: distance is
`round(distance, 2)` km. -/
structure Haven : Type where
  type : String
  lat : ℚ
  lng : ℚ
  distance : ℚ
  description : String
deriving DecidableEq, Repr

/-- `find_nearest_safe_havens`: rows with negative severity, with their
rounded distance to the query point, sorted ascending by that distance, first
`limit` of them.  Python's stable sort is modelled by `List.mergeSort`. -/
noncomputable def find_nearest_safe_havens (lat lng : ℚ) (crimes : List Crime) (limit : ℕ) :
    List Haven :=
  (((crimes.filter fun c => c.severity < 0).map fun c =>
      { type := c.type, lat := c.latitude, lng := c.longitude
        distance := pyRoundTo 2 (haversine (lat : ℝ) (lng : ℝ) (c.latitude : ℝ) (c.longitude : ℝ))
        description := c.description : Haven }).mergeSort
    fun a b => a.distance ≤ b.distance).take limit

/-- The radar qualification test of `/get_radar_scan`: within 1 km and
positive severity. -/
noncomputable def radar_near (lat lng : ℚ) (c : Crime) : Prop :=
  haversine (lat : ℝ) (lng : ℝ) (c.latitude : ℝ) (c.longitude : ℝ) < 1.0

noncomputable instance (lat lng : ℚ) (c : Crime) : Decidable (radar_near lat lng c) :=
  inferInstanceAs (Decidable (haversine (lat : ℝ) (lng : ℝ) (c.latitude : ℝ) (c.longitude : ℝ) < 1.0))

/-- The radar `total_risk`: sum of positive severities of crimes within 1 km
(no time multiplier). -/
noncomputable def radar_total_risk (lat lng : ℚ) (crimes : List Crime) : ℤ :=
  (crimes.map fun c => if radar_near lat lng c ∧ 0 < c.severity then c.severity else 0).sum

noncomputable def radar_pin (lat lng : ℚ) (c : Crime) : RadarPin :=
  { lat := c.latitude, lng := c.longitude, type := c.type
    distance := pyRound (haversine (lat : ℝ) (lng : ℝ) (c.latitude : ℝ) (c.longitude : ℝ) * 1000)
    severity := c.severity }

/-- The `nearby_crimes` list of `/get_radar_scan` before sorting: one pin per
qualifying crime, in table order. -/
noncomputable def radar_nearby_crimes (lat lng : ℚ) (crimes : List Crime) : List RadarPin :=
  crimes.filterMap fun c =>
    if radar_near lat lng c ∧ 0 < c.severity then some (radar_pin lat lng c) else none

/-- Result record of `/get_radar_scan`.  Mirrors the JSON response: the
`nearby_crimes` count is taken from the already-truncated list. -/
structure RadarResult : Type where
  safety_score : ℚ
  nearby_crimes : ℕ
  recent_incidents : List RadarPin
  safe_havens : List Haven

/-- `/get_radar_scan`: sort the qualifying pins by recorded distance, truncate
to 5, score `round(max(0, min(100, 100 − 1.5·risk)), 1)`, and report the
length of the truncated list as `nearby_crimes`. -/
noncomputable def get_radar_scan (lat lng : ℚ) (crimes : List Crime) : RadarResult :=
  let sorted := ((radar_nearby_crimes lat lng crimes).mergeSort
    fun a b => a.distance ≤ b.distance).take 5
  { safety_score :=
      pyRoundTo 1 (max 0 (min 100 (100 - (radar_total_risk lat lng crimes : ℚ) * 1.5)))
    nearby_crimes := sorted.length
    recent_incidents := sorted
    safe_havens := find_nearest_safe_havens lat lng crimes 2 }

/-! ## Helper lemmas -/

theorem route_near_same (v : ℚ × ℚ) (c : Crime)
    (h1 : c.latitude = v.2) (h2 : c.longitude = v.1) : route_near v c := by
  unfold route_near
  rw [h1, h2, haversine_self]
  norm_num

theorem radar_near_same (lat lng : ℚ) (c : Crime)
    (h1 : c.latitude = lat) (h2 : c.longitude = lng) : radar_near lat lng c := by
  unfold radar_near
  rw [h1, h2, haversine_self]
  norm_num

theorem sum_map_swap {α β : Type} (V : List α) (C : List β) (f : α → β → ℚ) :
    (V.map fun v => (C.map (f v)).sum).sum = (C.map fun c => (V.map fun v => f v c).sum).sum := by
  induction V with
  | nil => simp
  | cons v V ih => simp [ih, List.sum_map_add]

/-- The general formula of `update_incident` on danger incidents, used both to
state and to instantiate claim C1. -/
theorem update_incident_danger_score (all : List Incident) (now : ℚ) (inc : Incident)
    (hb : 0 ≤ inc.base_severity) :
    (update_incident all now inc).dynamic_risk_score
      = pyRoundTo 2 (max 0.0 (min 10.0
          ((inc.base_severity : ℝ) * ((get_time_weight inc.type (hour_of now) : ℚ) : ℝ)
            * recency_factor inc now * ((calculate_hotspot_density inc all now : ℚ) : ℝ)
            - calculate_safety_influence inc all))) := by
  unfold update_incident
  rw [if_neg (not_lt.mpr hb)]

/-! ## Claim C3: the prune predicate -/

/-- C3: the prune step of `run_simulation` removes an incident exactly when
its dynamic risk score is below 0.5, it is at least one hour old, and it is
not a safety asset; consequently an incident with negative base severity is
never removed. -/
theorem c3_prune_characterization (incs : List Incident) (now : ℚ) (inc : Incident)
    (hmem : inc ∈ incs) :
    (inc ∉ prune_incidents incs now ↔
      inc.dynamic_risk_score < 0.5 ∧ 3600 ≤ now - inc.timestamp ∧ 0 ≤ inc.base_severity)
    ∧ (inc.base_severity < 0 → inc ∈ prune_incidents incs now) := by
  have hm : inc ∈ prune_incidents incs now ↔
      (0.5 ≤ inc.dynamic_risk_score ∨ inc.base_severity < 0 ∨ now - inc.timestamp < 3600) := by
    simp [prune_incidents, List.mem_filter, hmem]
  constructor
  · rw [hm]
    constructor
    · intro h
      push_neg at h
      exact ⟨h.1, h.2.2, h.2.1⟩
    · intro h
      push_neg
      exact ⟨h.1, h.2.2, h.2.1⟩
  · intro h
    exact hm.mpr (Or.inr (Or.inl h))

def c3_incident : Incident :=
  { id := 3, type := .Robbery, latitude := 13, longitude := 80.2
    base_severity := 7, dynamic_risk_score := 0.2, timestamp := 0, last_updated := 0
    time_decay_factor := 0.15, hotspot_density := 1, safety_influence := 0
    description := "historical robbery" }

/-- Witness for C3 at a concrete stale low-score danger incident. -/
theorem c3_prune_characterization_witness :
    (c3_incident ∉ prune_incidents [c3_incident] 7200 ↔
      c3_incident.dynamic_risk_score < 0.5 ∧ 3600 ≤ (7200 : ℚ) - c3_incident.timestamp
        ∧ 0 ≤ c3_incident.base_severity)
    ∧ (c3_incident.base_severity < 0 → c3_incident ∈ prune_incidents [c3_incident] 7200) :=
  c3_prune_characterization [c3_incident] 7200 c3_incident (by simp)

/-! ## Claim C4: safety assets are static under recomputation -/

/-- C4: a loaded incident starts with `hotspot_density = 1` and
`safety_influence = 0`; both spatial calculators return the neutral values on
safety assets; and `update_dynamic_scores` maps a safety asset in that state
to `dynamic_risk_score = base_severity`, `hotspot_density = 1`,
`safety_influence = 0` (its branch touches nothing else). -/
theorem c4_safety_assets_static :
    (∀ idn ct lat lon sev ts now desc,
      (load_incident idn ct lat lon sev ts now desc).hotspot_density = 1
      ∧ (load_incident idn ct lat lon sev ts now desc).safety_influence = 0)
    ∧ (∀ (target : Incident) (all : List Incident) (now : ℚ), target.base_severity < 0 →
        calculate_hotspot_density target all now = 1 ∧ calculate_safety_influence target all = 0)
    ∧ (∀ (all : List Incident) (now : ℚ) (inc : Incident), inc.base_severity < 0 →
        inc.hotspot_density = 1 → inc.safety_influence = 0 →
        (update_incident all now inc).dynamic_risk_score = (inc.base_severity : ℚ)
        ∧ (update_incident all now inc).hotspot_density = 1
        ∧ (update_incident all now inc).safety_influence = 0) := by
  refine ⟨fun idn ct lat lon sev ts now desc => ⟨?_, ?_⟩, fun target all now h => ⟨?_, ?_⟩,
    fun all now inc h h1 h2 => ?_⟩
  · norm_num [load_incident]
  · norm_num [load_incident]
  · norm_num [calculate_hotspot_density, h]
  · norm_num [calculate_safety_influence, h]
  · unfold update_incident
    rw [if_pos h]
    exact ⟨rfl, h1, h2⟩

/-! ## Claim C6: empty incident set degrades to maximal safety -/

/-- C6: with the fallback empty incident table (the `get_crime_df` exception
path builds an empty dataframe), every route scores 100 with no flagged pins,
and every radar scan scores 100. -/
theorem c6_empty_set_fail_open :
    ∀ (g : List (ℚ × ℚ)) (tm lat lng : ℚ),
      calculate_safety g [] tm = (100, [])
      ∧ (get_radar_scan lat lng []).safety_score = 100 := by
  intro g tm lat lng
  have hrisk : route_total_risk g [] tm = 0 := by
    unfold route_total_risk
    exact List.sum_eq_zero fun x hx => by
      rcases List.mem_map.mp hx with ⟨v, _, hv⟩
      simpa using hv.symm
  have hpins : route_pins g [] = [] := by
    unfold route_pins
    induction every_fifth g with
    | nil => rfl
    | cons v V ih =>
      rw [List.flatMap_cons, ih, List.filterMap_nil, List.nil_append]
  constructor
  · unfold calculate_safety
    rw [hrisk, hpins]
    refine Prod.ext ?_ rfl
    show pyRoundTo 2 (max 0 (min 100 (100 - 0 * 2))) = 100
    rw [show max (0:ℚ) (min 100 (100 - 0 * 2)) = 100 by norm_num]
    exact pyRoundTo_eq_self 10000 (by norm_num)
  · show pyRoundTo 1 (max 0 (min 100 (100 - (radar_total_risk lat lng [] : ℚ) * 1.5))) = 100
    have : radar_total_risk lat lng [] = 0 := rfl
    rw [this]
    rw [show max (0:ℚ) (min 100 (100 - (0:ℤ) * 1.5)) = 100 by norm_num]
    exact pyRoundTo_eq_self 1000 (by norm_num)

/-! ## Claim C7: the time-of-day weight windows -/

/-- C7: `get_time_weight` is 1.3 exactly for the four night-sensitive
categories during hours 20–23 and 0–4 (the wrap includes hour 4), 1.1 exactly
for Harassment during hours 10–18 inclusive, and 1.0 otherwise. -/
theorem c7_time_weight_windows :
    ∀ (c : Category) (h : ℤ),
      get_time_weight c h =
        if (20 ≤ h ∨ h ≤ 4) ∧
            (c = .Assault ∨ c = .Robbery ∨ c = .PoorLighting ∨ c = .IsolatedArea) then 1.3
        else if (10 ≤ h ∧ h ≤ 18) ∧ c = .Harassment then 1.1
        else 1.0 := by
  intro c h
  unfold get_time_weight
  split_ifs <;> first | rfl | tauto | omega

/-! ## Claim C1: the dynamic risk formula and the exp(-1) scenario -/

/-- The C1 scenario incident: an Assault (base severity 8, decay rate 0.1)
that occurred exactly 10 hours before the recompute time 43200 s (= 12:00,
outside both time-weight windows), alone in the working set. -/
def c1_incident : Incident :=
  { id := 1, type := .Assault, latitude := 13, longitude := 80.2
    base_severity := 8, dynamic_risk_score := 8, timestamp := 7200, last_updated := 0
    time_decay_factor := 0.1, hotspot_density := 1, safety_influence := 0
    description := "assault report" }

theorem c1_exp_bounds : (294 : ℝ) ≤ 800 * Real.exp (-1) ∧ 800 * Real.exp (-1) < 294.5 := by
  have h1 := Real.exp_one_gt_d9
  have h2 := Real.exp_one_lt_d9
  have hpos := Real.exp_pos 1
  rw [Real.exp_neg, show (800 : ℝ) * (Real.exp 1)⁻¹ = 800 / Real.exp 1 by ring]
  constructor
  · rw [le_div_iff₀ hpos]
    nlinarith
  · rw [div_lt_iff₀ hpos]
    nlinarith

theorem c1_hotspot : calculate_hotspot_density c1_incident [c1_incident] 43200 = 1 := by
  unfold calculate_hotspot_density close_incident_count
  rw [if_neg (by norm_num [c1_incident])]
  rw [List.map_singleton, if_neg (by intro hc; exact hc.1 rfl)]
  norm_num

theorem c1_safety_influence : calculate_safety_influence c1_incident [c1_incident] = 0 := by
  unfold calculate_safety_influence
  rw [if_neg (by norm_num [c1_incident])]
  rw [List.map_singleton, if_neg (by intro hc; revert hc; norm_num [c1_incident])]
  norm_num

theorem c1_time_weight : get_time_weight c1_incident.type (hour_of 43200) = 1 := by
  have hh : hour_of 43200 = 12 := by
    unfold hour_of
    rw [show (43200 : ℚ) / 3600 = ((12 : ℤ) : ℚ) by norm_num, Int.floor_intCast]
    rfl
  rw [hh]
  show get_time_weight .Assault 12 = 1
  unfold get_time_weight
  rw [if_neg (by omega), if_pos (by omega), if_neg (by intro hc; cases hc)]
  norm_num

theorem c1_recency : recency_factor c1_incident 43200 = Real.exp (-1) := by
  unfold recency_factor hours_elapsed
  norm_num [c1_incident]

/-- C1: for every danger incident (non-negative base severity) and recompute
time, `update_dynamic_scores` stores
`round(clamp(base·time_weight·recency·hotspot − safety_influence, 0, 10), 2)`
with `recency = exp(−decay·hours_elapsed)`; for the scenario incident
(base 8, decay 0.1, 10 hours old, density 1, influence 0, weight 1) the
recomputed score is 2.94. -/
theorem c1_dynamic_risk_formula :
    (∀ (all : List Incident) (now : ℚ) (inc : Incident), inc ∈ all → 0 ≤ inc.base_severity →
      update_incident all now inc ∈ update_dynamic_scores all now
      ∧ (update_incident all now inc).dynamic_risk_score
          = pyRoundTo 2 (max 0.0 (min 10.0
              ((inc.base_severity : ℝ) * ((get_time_weight inc.type (hour_of now) : ℚ) : ℝ)
                * recency_factor inc now * ((calculate_hotspot_density inc all now : ℚ) : ℝ)
                - calculate_safety_influence inc all))))
    ∧ recency_factor c1_incident 43200 = Real.exp (-1)
    ∧ (update_incident [c1_incident] 43200 c1_incident).dynamic_risk_score = 2.94 := by
  refine ⟨fun all now inc hmem hb =>
    ⟨List.mem_map_of_mem _ hmem, update_incident_danger_score all now inc hb⟩,
    c1_recency, ?_⟩
  rw [update_incident_danger_score [c1_incident] 43200 c1_incident (by norm_num [c1_incident])]
  rw [c1_hotspot, c1_safety_influence, c1_time_weight, c1_recency]
  have hx : max 0.0 (min 10.0
      ((c1_incident.base_severity : ℝ) * ((1 : ℚ) : ℝ) * Real.exp (-1) * ((1 : ℚ) : ℝ) - 0))
      = 8 * Real.exp (-1) := by
    have h8 : (c1_incident.base_severity : ℝ) = 8 := by norm_num [c1_incident]
    rw [h8]
    have hb := c1_exp_bounds
    rw [min_eq_right (by push_cast; nlinarith), max_eq_right (by push_cast; nlinarith [Real.exp_pos (-1)])]
    push_cast
    ring
  rw [hx]
  unfold pyRoundTo
  rw [show (8 : ℝ) * Real.exp (-1) * 10 ^ 2 = 800 * Real.exp (-1) by ring]
  rw [pyRound_eq_of_lt_half 294 c1_exp_bounds.1 (by have := c1_exp_bounds.2; push_cast; linarith)]
  norm_num

/-! ## Claim C2: route scoring and the clamped scenario -/

def c2_geometry : List (ℚ × ℚ) := [(80.2, 13)]

def c2_safety_asset : Crime :=
  { latitude := 13, longitude := 80.2, type := "Police Station"
    description := "station", severity := -10 }

def c2_danger : Crime :=
  { latitude := 13, longitude := 80.2, type := "Assault"
    description := "assault", severity := 5 }

def c2_crimes : List Crime := [c2_safety_asset, c2_danger]

theorem c2_total_risk : route_total_risk c2_geometry c2_crimes 1 = -5 := by
  unfold route_total_risk c2_geometry c2_crimes
  rw [show every_fifth [((80.2 : ℚ), (13 : ℚ))] = [(80.2, 13)] by simp [every_fifth]]
  rw [List.map_singleton, List.map_cons, List.map_singleton]
  rw [if_pos (route_near_same _ _ rfl rfl), if_pos (route_near_same _ _ rfl rfl)]
  norm_num [route_contrib, c2_safety_asset, c2_danger]

/-- C2: the route safety score is
`round(clamp(100 − 2·accumulator, 0, 100), 2)` where the accumulator adds,
over every 5th vertex and every crime within 0.3 km, negative severities
unmodified and non-negative severities times the time multiplier; in the
scenario with one −10 safety asset and one severity-5 danger at the sampled
vertex, the accumulator is −5, the score clamps to 100, and the route
classifies as "safe". -/
theorem c2_route_score_scenario :
    (∀ (g : List (ℚ × ℚ)) (crimes : List Crime) (tm : ℚ),
      (calculate_safety g crimes tm).1
        = pyRoundTo 2 (max 0 (min 100 (100 - route_total_risk g crimes tm * 2))))
    ∧ route_total_risk c2_geometry c2_crimes 1 = -5
    ∧ (calculate_safety c2_geometry c2_crimes 1).1 = 100
    ∧ (classify_route_safety (calculate_safety c2_geometry c2_crimes 1).1).1 = "safe" := by
  have hscore : (calculate_safety c2_geometry c2_crimes 1).1 = 100 := by
    show pyRoundTo 2 (max 0 (min 100 (100 - route_total_risk c2_geometry c2_crimes 1 * 2))) = 100
    rw [c2_total_risk]
    rw [show max (0:ℚ) (min 100 (100 - (-5) * 2)) = 100 by norm_num]
    exact pyRoundTo_eq_self 10000 (by norm_num)
  refine ⟨fun g crimes tm => rfl, c2_total_risk, hscore, ?_⟩
  rw [hscore]
  unfold classify_route_safety
  rw [if_pos (by norm_num)]

/-! ## Claim C10: per-vertex accumulation vs. deduplicated pins -/

/-- The number of sampled vertices of a geometry within 0.3 km of a crime. -/
noncomputable def sampled_near_count (geometry : List (ℚ × ℚ)) (c : Crime) : ℕ :=
  ((every_fifth geometry).map fun v => if route_near v c then 1 else 0).sum

theorem sum_ite_contrib (V : List (ℚ × ℚ)) (c : Crime) (x : ℚ) :
    (V.map fun v => if route_near v c then x else 0).sum
      = ((V.map fun v => if route_near v c then (1 : ℕ) else 0).sum : ℚ) * x := by
  induction V with
  | nil => simp
  | cons v V ih =>
    by_cases h : route_near v c
    · simp only [List.map_cons, List.sum_cons, if_pos h, ih]
      push_cast
      ring
    · simp only [List.map_cons, List.sum_cons, if_neg h, ih]
      push_cast
      ring

/-- C10: the risk accumulator counts a crime once per sampled vertex within
0.3 km (deduplication never touches it), while the returned pin list contains
each pin at most once. -/
theorem c10_accumulate_per_vertex_dedup_pins :
    ∀ (g : List (ℚ × ℚ)) (crimes : List Crime) (tm : ℚ),
      route_total_risk g crimes tm
        = (crimes.map fun c => (sampled_near_count g c : ℚ) * route_contrib tm c).sum
      ∧ ∀ p : Pin, ((calculate_safety g crimes tm).2).count p ≤ 1 := by
  intro g crimes tm
  constructor
  · unfold route_total_risk
    rw [sum_map_swap]
    simp only [sum_ite_contrib]
    rfl
  · intro p
    exact List.nodup_iff_count_le_one.mp (List.nodup_dedup _) p

/-! ## Claim C5: the radar scan (corrected: the count is truncated at 5) -/

/-- Amended C5: the radar score equals the unrounded clamp (the 1-decimal
rounding is the identity on these half-integer values), the returned
incidents are the first 5 of the qualifying pins sorted ascending by recorded
distance, and the reported count is the length of that truncated list, i.e.
`min(qualifying, 5)` — not the full qualifying count. -/
theorem c5_radar_scan :
    ∀ (lat lng : ℚ) (crimes : List Crime),
      (get_radar_scan lat lng crimes).safety_score
          = max 0 (min 100 (100 - (radar_total_risk lat lng crimes : ℚ) * 1.5))
      ∧ (get_radar_scan lat lng crimes).nearby_crimes
          = min (radar_nearby_crimes lat lng crimes).length 5
      ∧ (get_radar_scan lat lng crimes).recent_incidents
          = ((radar_nearby_crimes lat lng crimes).mergeSort
              fun a b => a.distance ≤ b.distance).take 5
      ∧ List.Sorted (fun a b : RadarPin => a.distance ≤ b.distance)
          (get_radar_scan lat lng crimes).recent_incidents := by
  intro lat lng crimes
  refine ⟨?_, ?_, rfl, ?_⟩
  · show pyRoundTo 1 (max 0 (min 100 (100 - (radar_total_risk lat lng crimes : ℚ) * 1.5))) = _
    set t := radar_total_risk lat lng crimes with ht
    have hm : ∃ m : ℤ, (max 0 (min 100 (100 - (t : ℚ) * 1.5))) * 10 = m := by
      rcases le_total (min 100 (100 - (t : ℚ) * 1.5)) 0 with h | h
      · exact ⟨0, by rw [max_eq_left h]; norm_num⟩
      · rw [max_eq_right h]
        rcases le_total (100 : ℚ) (100 - (t : ℚ) * 1.5) with h' | h'
        · exact ⟨1000, by rw [min_eq_left h']; norm_num⟩
        · exact ⟨1000 - 15 * t, by rw [min_eq_right h']; push_cast; ring⟩

    obtain ⟨m, hm⟩ := hm
    exact pyRoundTo_eq_self m hm
  · show (((radar_nearby_crimes lat lng crimes).mergeSort
        fun a b => a.distance ≤ b.distance).take 5).length = _
    rw [List.length_take, List.length_mergeSort]
    exact Nat.min_comm _ _
  · have hs := @List.sorted_mergeSort RadarPin
      (fun a b => decide (a.distance ≤ b.distance))
      (fun a b c hab hbc => by
        simp only [decide_eq_true_eq] at *
        omega)
      (fun a b => by
        simp only [Bool.or_eq_true, decide_eq_true_eq]
        omega)
      (radar_nearby_crimes lat lng crimes)
    have hp : List.Pairwise (fun a b : RadarPin => a.distance ≤ b.distance)
        ((radar_nearby_crimes lat lng crimes).mergeSort
          fun a b => a.distance ≤ b.distance) :=
      hs.imp fun hab => of_decide_eq_true hab
    exact hp.take

def c5_crime : Crime :=
  { latitude := 13, longitude := 80.2, type := "Assault"
    description := "sim", severity := 1 }

def c5_crimes : List Crime := [c5_crime, c5_crime, c5_crime, c5_crime, c5_crime, c5_crime]

/-- Counterexample to C5 as stated: six qualifying incidents inside the 1 km
radius, yet the response reports `nearby_crimes = 5`, because the source
truncates the list to 5 before taking its length. -/
theorem c5_count_counterexample :
    (radar_nearby_crimes 13 80.2 c5_crimes).length = 6
    ∧ (get_radar_scan 13 80.2 c5_crimes).nearby_crimes = 5 := by
  have hq : radar_near 13 80.2 c5_crime ∧ 0 < c5_crime.severity :=
    ⟨radar_near_same _ _ _ rfl rfl, by norm_num [c5_crime]⟩
  have hlen : (radar_nearby_crimes 13 80.2 c5_crimes).length = 6 := by
    unfold radar_nearby_crimes c5_crimes
    simp [List.filterMap_cons, if_pos hq]
  refine ⟨hlen, ?_⟩
  show (((radar_nearby_crimes 13 80.2 c5_crimes).mergeSort
      fun a b => a.distance ≤ b.distance).take 5).length = 5
  rw [List.length_take, List.length_mergeSort, hlen]
  rfl

/-! ## Claim C8: future timestamps are not floored (corrected) -/

/-- The C8 incident: an Assault dated 36000 s into the future of the
recompute time 0. -/
def c8_incident : Incident :=
  { id := 8, type := .Assault, latitude := 13, longitude := 80.2
    base_severity := 8, dynamic_risk_score := 8, timestamp := 36000, last_updated := 0
    time_decay_factor := 0.1, hotspot_density := 1, safety_influence := 0
    description := "future-dated report" }

/-- Counterexample to C8 as stated: `update_dynamic_scores` never floors the
elapsed time at 0, so a future-dated incident has `hours_elapsed = −10 < 0`
and a recency factor `exp(1) > 1`. -/
theorem c8_counterexample :
    hours_elapsed c8_incident 0 < 0 ∧ 1 < recency_factor c8_incident 0 := by
  have hh : hours_elapsed c8_incident 0 = -10 := by
    norm_num [hours_elapsed, c8_incident]
  constructor
  · rw [hh]; norm_num
  · unfold recency_factor
    rw [hh]
    rw [show -((c8_incident.time_decay_factor : ℝ)) * ((-10 : ℚ) : ℝ) = 1 by
      norm_num [c8_incident]]
    linarith [Real.add_one_le_exp 1]

/-- Amended C8: for a danger incident dated in the future with positive decay
rate, the elapsed hours are negative (the code performs no flooring at 0) and
the recency factor exceeds 1; the recomputed risk score is still capped at 10
by the final clamp. -/
theorem c8_amended_future_unfloored :
    ∀ (all : List Incident) (now : ℚ) (inc : Incident),
      0 ≤ inc.base_severity → now < inc.timestamp → 0 < inc.time_decay_factor →
      hours_elapsed inc now < 0
      ∧ 1 < recency_factor inc now
      ∧ (update_incident all now inc).dynamic_risk_score ≤ 10 := by
  intro all now inc hb hts hd
  have hh : hours_elapsed inc now < 0 := by
    unfold hours_elapsed
    apply div_neg_of_neg_of_pos _ (by norm_num)
    linarith
  refine ⟨hh, ?_, ?_⟩
  · unfold recency_factor
    have harg : (0 : ℝ) < -(inc.time_decay_factor : ℝ) * ((hours_elapsed inc now : ℚ) : ℝ) := by
      have h1 : (0 : ℝ) < (inc.time_decay_factor : ℝ) := by exact_mod_cast hd
      have h2 : ((hours_elapsed inc now : ℚ) : ℝ) < 0 := by exact_mod_cast hh
      nlinarith
    calc (1 : ℝ) = Real.exp 0 := Real.exp_zero.symm
      _ < _ := Real.exp_lt_exp.mpr harg
  · rw [update_incident_danger_score all now inc hb]
    have h10 : max 0.0 (min 10.0
        ((inc.base_severity : ℝ) * ((get_time_weight inc.type (hour_of now) : ℚ) : ℝ)
          * recency_factor inc now * ((calculate_hotspot_density inc all now : ℚ) : ℝ)
          - calculate_safety_influence inc all)) ≤ ((10 : ℤ) : ℝ) := by
      push_cast
      exact max_le (by norm_num) ((min_le_left _ _).trans (by norm_num))
    calc pyRoundTo 2 _ ≤ ((10 : ℤ) : ℚ) := pyRoundTo_le_of_le h10
      _ = 10 := by norm_num

theorem c8_amended_future_unfloored_witness :
    hours_elapsed c8_incident 0 < 0
    ∧ 1 < recency_factor c8_incident 0
    ∧ (update_incident [c8_incident] 0 c8_incident).dynamic_risk_score ≤ 10 :=
  c8_amended_future_unfloored [c8_incident] 0 c8_incident
    (by norm_num [c8_incident]) (by norm_num [c8_incident]) (by norm_num [c8_incident])

/-! ## Claim C9: near-repeat offsets (corrected for the 4-decimal rounding) -/

def c9_anchor : Incident :=
  { id := 90, type := .Robbery, latitude := 12.99996, longitude := 80.2
    base_severity := 7, dynamic_risk_score := 7, timestamp := 0, last_updated := 0
    time_decay_factor := 0.15, hotspot_density := 1, safety_influence := 0
    description := "anchor robbery" }

/-- Counterexample to C9 as stated: with anchor latitude 12.99996 and an
in-range offset 0.0149999, the stored latitude rounds to 13.015, which is
0.01504 > 0.015 away from the anchor. -/
theorem c9_offset_counterexample :
    |(0.0149999 : ℚ)| ≤ 0.015
    ∧ 0.015 <
      |(generate_new_incident_near .Assault c9_anchor 0.0149999 0 0 91 "x").latitude
        - c9_anchor.latitude| := by
  constructor
  · rw [abs_of_pos (by norm_num)]; norm_num
  · have hlat : (generate_new_incident_near .Assault c9_anchor 0.0149999 0 0 91 "x").latitude
        = pyRoundTo 4 ((12.99996 : ℚ) + 0.0149999) := rfl
    rw [hlat, show (12.99996 : ℚ) + 0.0149999 = 13.0149599 by norm_num]
    unfold pyRoundTo
    rw [show (13.0149599 : ℚ) * 10 ^ 4 = 130149.599 by norm_num]
    rw [pyRound_eq_add_one_of_half_lt 130149 (by norm_num) (by norm_num)]
    rw [show c9_anchor.latitude = (12.99996 : ℚ) from rfl]
    rw [abs_of_pos (by norm_num)]
    norm_num

/-- Amended C9: the near-repeat branch places the stored coordinates within
±0.01505° of the anchor — the uniform offset contributes at most 0.015° and
the final rounding of the stored coordinate to 4 decimal places at most
0.00005° more. -/
theorem c9_amended_offset_bound :
    ∀ (ct : Category) (anchor : Incident) (lat_offset lon_offset now : ℚ)
      (idn : ℕ) (desc : String),
      |lat_offset| ≤ 0.015 → |lon_offset| ≤ 0.015 →
      |(generate_new_incident_near ct anchor lat_offset lon_offset now idn desc).latitude
          - anchor.latitude| ≤ 0.01505
      ∧ |(generate_new_incident_near ct anchor lat_offset lon_offset now idn desc).longitude
          - anchor.longitude| ≤ 0.01505 := by
  intro ct anchor lat_offset lon_offset now idn desc hlat hlon
  have key : ∀ (a o : ℚ), |o| ≤ 0.015 → |pyRoundTo 4 (a + o) - a| ≤ 0.01505 := by
    intro a o ho
    have h1 := abs_pyRoundTo_sub_le 4 (a + o)
    calc |pyRoundTo 4 (a + o) - a|
        = |(pyRoundTo 4 (a + o) - (a + o)) + o| := by
          rw [show pyRoundTo 4 (a + o) - a = (pyRoundTo 4 (a + o) - (a + o)) + o by ring]
      _ ≤ |pyRoundTo 4 (a + o) - (a + o)| + |o| := abs_add _ _
      _ ≤ 1 / (2 * 10 ^ 4) + 0.015 := add_le_add h1 ho
      _ = 0.01505 := by norm_num
  exact ⟨key anchor.latitude lat_offset hlat, key anchor.longitude lon_offset hlon⟩

theorem c9_amended_offset_bound_witness :
    |(generate_new_incident_near .Assault c9_anchor 0.0149999 0 0 91 "x").latitude
        - c9_anchor.latitude| ≤ 0.01505
    ∧ |(generate_new_incident_near .Assault c9_anchor 0.0149999 0 0 91 "x").longitude
        - c9_anchor.longitude| ≤ 0.01505 :=
  c9_amended_offset_bound .Assault c9_anchor 0.0149999 0 0 91 "x"
    (by rw [abs_of_pos (by norm_num)]; norm_num) (by norm_num)

end SafeRoute
